import Mathlib

/-!
Verification development for the StreamVault repository.

This file gives a shallow embedding, in Lean 4, of the parts of the
repository that the specification's testable properties talk about:

* `src/app/db.py` — the deadlock-retry transaction wrapper
  (`transaction`, `_is_deadlock_error`, `_calculate_retry_delay`),
  the in-memory query cache (`execute_cached_query`, `invalidate_cache`)
  and its module-level state (`_query_cache`, `_cache_timestamps`),
  and per-request connection handling (`get_db`, `close_db`).
* `src/app/__init__.py` — the registrations performed by `create_app`.
* `src/app/security.py` — `validate_rating`.

Python floats are modelled by rationals (ℚ), extended with the three
non-finite values where the code's behaviour depends on them.  Python
dicts are modelled by association lists together with the operations the
code uses (membership, indexing, `.get`, item assignment, `.pop`,
re-binding to `{}`); on states with unique keys — the only states a dict
can be in — these agree with dict semantics.

The `transaction` wrapper in `db.py` is written as a
`@contextlib.contextmanager` generator whose body `yield`s inside a
retry loop.  Its embedding therefore has two layers, both modelled here:
the generator body itself (`transactionGen`), and the CPython
`contextlib._GeneratorContextManager.__enter__/__exit__` protocol that a
`with transaction() as cursor:` statement drives it with
(`with_transaction`).  The protocol is the documented one: on an
exception in the `with` body, `__exit__` calls `gen.throw(exc)`; if the
generator then yields again instead of stopping, `__exit__` raises
`RuntimeError("generator didn't stop after throw()")`.
-/

namespace StreamVault

/-! ## Constants from src/app/db.py, lines 38-45 -/

def MYSQL_ERROR_DEADLOCK : Nat := 1213

def MYSQL_ERROR_LOCK_WAIT_TIMEOUT : Nat := 1205

def DEADLOCK_MAX_RETRIES : Nat := 3

def DEADLOCK_RETRY_BASE_DELAY : ℚ := 1/10

def DEADLOCK_RETRY_MAX_DELAY : ℚ := 1

/-- Exceptions a transaction block can raise: a `mysql.connector.Error`
carrying a MySQL errno, or any other (non-database) exception,
distinguished only by an abstract tag. -/
inductive PyExc where
  | dbError (errno : Nat)
  | other (tag : Nat)
deriving DecidableEq, Repr

/-- Embedding of `_is_deadlock_error` (db.py, lines 231-243): a
`mysql.connector.Error` whose errno is 1213 or 1205. -/
def _is_deadlock_error : PyExc → Bool
  | .dbError errno =>
      decide (errno = MYSQL_ERROR_DEADLOCK ∨ errno = MYSQL_ERROR_LOCK_WAIT_TIMEOUT)
  | .other _ => false

/-- Embedding of `_calculate_retry_delay` (db.py, lines 246-267).
`r` stands for the value returned by `random.random()`, a number in
[0, 1). -/
def _calculate_retry_delay (attempt : Nat) (r : ℚ) : ℚ :=
  let delay := DEADLOCK_RETRY_BASE_DELAY * 2 ^ attempt
  let jitter := delay * (1/4) * (r * 2 - 1)
  min (delay + jitter) DEADLOCK_RETRY_MAX_DELAY

/-! ## The transaction() generator and the contextmanager protocol -/

/-- Observable events of one `with transaction() as cursor:` statement.
`runBlock n` is the `with` body being executed (with `n` the value the
generator's `attempt` variable had when it yielded the cursor);
`commit`, `rollback` and `sleep` are `db.commit()`, `db.rollback()` and
`time.sleep(_calculate_retry_delay attempt)`. -/
inductive Event where
  | runBlock (attempt : Nat)
  | commit
  | rollback
  | sleep (attempt : Nat)
deriving DecidableEq, Repr

/-- What the caller of a suspended generator sends into it at a `yield`:
`next(gen)` or `gen.throw(e)`. -/
inductive Resume where
  | nextR
  | throwR (e : PyExc)
deriving DecidableEq, Repr

/-- Exceptions the `transaction` generator itself can raise: a
re-raised block exception, or `DeadlockError` (db.py, lines 48-53). -/
inductive GenExc where
  | pyExc (e : PyExc)
  | deadlockError
deriving DecidableEq, Repr

/-- How a run of the generator ends: suspended at a (further) `yield`,
returned normally (`StopIteration`), or raised an exception. -/
inductive GenOutcome where
  | suspended
  | returned
  | raised (e : GenExc)
deriving DecidableEq, Repr

/-- Embedding of the `transaction` generator body (db.py, lines
306-365), observed from the `yield cursor` of iteration `attempt` of
`for attempt in range(DEADLOCK_MAX_RETRIES)`.  The list holds what the
caller sends in at each successive `yield`:

* `Resume.nextR` resumes the generator normally: it runs `db.commit()`
  and returns (lines 321-324).
* `Resume.throwR e` raises `e` at the `yield`: the `except` branch runs
  `db.rollback()` (line 329); on a deadlock error with retries left it
  sleeps and `continue`s, reaching the next iteration's `yield` (lines
  341-345); on a deadlock error with no retries left it raises
  `DeadlockError` (lines 346-354); otherwise it re-raises `e`
  (lines 355-358).

The `continue` path is taken only when `attempt <
DEADLOCK_MAX_RETRIES - 1`, so the loop can never finish all iterations
and fall through; the dead fall-through code at lines 363-365 is
therefore not represented.  Cursor open/close events are omitted. -/
def transactionGen : Nat → List Resume → List Event × GenOutcome
  | _, [] => ([], .suspended)
  | _, .nextR :: _ => ([.commit], .returned)
  | attempt, .throwR e :: rest =>
      if _is_deadlock_error e then
        if attempt < DEADLOCK_MAX_RETRIES - 1 then
          let res := transactionGen (attempt + 1) rest
          (.rollback :: .sleep attempt :: res.1, res.2)
        else
          ([.rollback], .raised .deadlockError)
      else
        ([.rollback], .raised (.pyExc e))

/-- Result of the whole `with transaction() as cursor:` statement. -/
inductive WithOutcome where
  | ok
  | raisedPy (e : PyExc)
  | raisedDeadlock
  | runtimeError
deriving DecidableEq, Repr

/-- Embedding of `with transaction() as cursor: BLOCK`, i.e. the
`contextlib._GeneratorContextManager` protocol driving the
`transaction` generator.  `blockResult` is what the single execution of
the `with` body does: `none` means it completes normally, `some e`
means it raises `e`.  (The body of a `with` statement executes at most
once; only the generator, not the body, can be resumed.)

Protocol, as implemented by CPython's `contextlib`:
* `__enter__` runs the generator to its first `yield` (iteration 0).
* The body runs (`Event.runBlock 0`).
* Body completed: `__exit__` calls `next(gen)`; `StopIteration` means a
  clean exit; a further yield would be `RuntimeError("generator didn't
  stop")`.
* Body raised `e`: `__exit__` calls `gen.throw(e)`.  If the exception
  (or another one) propagates out of the generator, it propagates to
  the caller.  If the generator stops via `StopIteration`, the
  exception is suppressed and the `with` statement completes normally.
  If the generator yields again, `__exit__` raises
  `RuntimeError("generator didn't stop after throw()")`. -/
def with_transaction (blockResult : Option PyExc) : List Event × WithOutcome :=
  match blockResult with
  | none =>
      match transactionGen 0 [.nextR] with
      | (evs, .returned) => (.runBlock 0 :: evs, .ok)
      | (evs, .suspended) => (.runBlock 0 :: evs, .runtimeError)
      | (evs, .raised (.pyExc e2)) => (.runBlock 0 :: evs, .raisedPy e2)
      | (evs, .raised .deadlockError) => (.runBlock 0 :: evs, .raisedDeadlock)
  | some e =>
      match transactionGen 0 [.throwR e] with
      | (evs, .suspended) => (.runBlock 0 :: evs, .runtimeError)
      | (evs, .raised (.pyExc e2)) => (.runBlock 0 :: evs, .raisedPy e2)
      | (evs, .raised .deadlockError) => (.runBlock 0 :: evs, .raisedDeadlock)
      | (evs, .returned) => (.runBlock 0 :: evs, .ok)

/-! ## The in-memory query cache (db.py, lines 55-57 and 396-452)

Python dicts keyed by strings are modelled by association lists.
`dictInsert` is item assignment (`d[k] = v`), `dictGet` is
`d[k]` / `d.get(k)` combined with `k in d`, and `dictPop` is
`d.pop(k, None)`.  On association lists with pairwise-distinct keys —
the only states a dict can take, and an invariant these operations
preserve — these have exactly dict semantics. -/

abbrev Dict (α : Type) : Type := List (String × α)

def dictGet {α : Type} : Dict α → String → Option α
  | [], _ => none
  | (k0, v) :: d, k => if k0 = k then some v else dictGet d k

def dictPop {α : Type} : Dict α → String → Dict α
  | [], _ => []
  | (k0, v) :: d, k => if k0 = k then dictPop d k else (k0, v) :: dictPop d k

def dictInsert {α : Type} (d : Dict α) (k : String) (v : α) : Dict α :=
  dictPop d k ++ [(k, v)]

/-- The two module-level cache maps of db.py, lines 55-57:
`_query_cache` maps a cache key to a stored query result, and
`_cache_timestamps` maps it to the `time.time()` value at which the
result was stored. -/
structure CacheState (α : Type) where
  query_cache : Dict α
  cache_timestamps : Dict ℚ
deriving DecidableEq, Repr

/-- Both caches as initialised at module load (db.py, lines 56-57). -/
def initialCacheState (α : Type) : CacheState α := ⟨[], []⟩

/-- The Flask configuration values `execute_cached_query` reads:
`current_app.config.get('CACHE_ENABLED', False)` and
`current_app.config.get('CACHE_TTL', 300)`, with the `.get` defaults
already applied. -/
structure AppConfig where
  cache_enabled : Bool
  cache_ttl : ℚ
deriving DecidableEq, Repr

/-- Embedding of `execute_query` (db.py, lines 121-170): runs the
parameterized SELECT against the live database.  The database client
round trip is abstracted by the oracle `dbEval`, giving the rows the
database would answer `(query, params)` with at this moment. -/
def execute_query {α : Type} (dbEval : String → List String → α)
    (query : String) (params : List String) : α :=
  dbEval query params

/-- Python truthiness of the `cache_key` argument (an optional string):
`if not cache_key:` is taken when the key is `None` or the empty
string. -/
def truthyKey : Option String → Bool
  | none => false
  | some s => !(s == "")

/-- Python evaluation of `ttl or current_app.config.get('CACHE_TTL',
300)` (db.py, line 419): the configured default is used when `ttl` is
`None` — or `0`, which is likewise falsy. -/
def resolveTtl (ttl : Option ℚ) (cfgTtl : ℚ) : ℚ :=
  match ttl with
  | none => cfgTtl
  | some t => if t = 0 then cfgTtl else t

/-- Embedding of `execute_cached_query` (db.py, lines 400-435).
`now` is `time.time()` at the moment of the call.  Returns the result,
the cache state after the call, and whether a live `execute_query` was
performed (`true`) or the answer came from the cache (`false`). -/
def execute_cached_query {α : Type} (cfg : AppConfig)
    (dbEval : String → List String → α) (query : String)
    (params : List String) (cache_key : Option String) (ttl : Option ℚ)
    (now : ℚ) (st : CacheState α) : α × CacheState α × Bool :=
  if !(cfg.cache_enabled) || !(truthyKey cache_key) then
    (execute_query dbEval query params, st, true)
  else
    let key := cache_key.getD ""
    let ttlv := resolveTtl ttl cfg.cache_ttl
    match dictGet st.query_cache key with
    | some cached =>
        let cache_time := (dictGet st.cache_timestamps key).getD 0
        if now - cache_time < ttlv then
          (cached, st, false)
        else
          let result := execute_query dbEval query params
          (result, ⟨dictInsert st.query_cache key result,
                    dictInsert st.cache_timestamps key now⟩, true)
    | none =>
        let result := execute_query dbEval query params
        (result, ⟨dictInsert st.query_cache key result,
                  dictInsert st.cache_timestamps key now⟩, true)

/-- Embedding of `invalidate_cache` (db.py, lines 438-452): with a
truthy key, `pop` that key from both maps; with `None` (or an empty
string, which is equally falsy), re-bind both maps to `{}`. -/
def invalidate_cache {α : Type} (cache_key : Option String)
    (st : CacheState α) : CacheState α :=
  if truthyKey cache_key then
    ⟨dictPop st.query_cache (cache_key.getD ""),
     dictPop st.cache_timestamps (cache_key.getD "")⟩
  else
    ⟨[], []⟩

/-- One call against the cache module: either an `execute_cached_query`
with arbitrary arguments, or an `invalidate_cache`. -/
inductive CacheOp (α : Type) where
  | exec (cfg : AppConfig) (dbEval : String → List String → α)
      (query : String) (params : List String) (cache_key : Option String)
      (ttl : Option ℚ) (now : ℚ)
  | invalidate (cache_key : Option String)

/-- State transition of one cache operation. -/
def applyCacheOp {α : Type} : CacheOp α → CacheState α → CacheState α
  | .exec cfg dbEval query params cache_key ttl now, st =>
      (execute_cached_query cfg dbEval query params cache_key ttl now st).2.1
  | .invalidate cache_key, st => invalidate_cache cache_key st

/-- Run a sequence of cache operations, oldest first. -/
def runCacheOps {α : Type} (ops : List (CacheOp α)) (st : CacheState α) :
    CacheState α :=
  ops.foldl (fun s op => applyCacheOp op s) st

/-! ## Per-request connection handling (db.py, lines 79-97) and the
application factory (src/app/__init__.py, lines 13-52) -/

/-- Embedding of `get_db` (db.py, lines 79-90).  The state is the `db`
slot of Flask's per-request `g` object; `fresh` is the connection
`mysql.connector.connect(**get_db_config())` would open if called now.
Returns the connection handed to the caller and the updated `g` slot. -/
def get_db {Conn : Type} (g_db : Option Conn) (fresh : Conn) :
    Conn × Option Conn :=
  match g_db with
  | some db => (db, some db)
  | none => (fresh, some fresh)

/-- Embedding of `close_db` (db.py, lines 93-97): pops the `db` slot of
`g` and reports whether a connection was there to close. -/
def close_db {Conn : Type} (g_db : Option Conn) : Option Conn × Bool :=
  match g_db with
  | some _ => (none, true)
  | none => (none, false)

/-- The registrations an application object accumulates. -/
structure FlaskApp where
  blueprints : List (String × Option String)
  error_handlers : List Nat
  teardown_appcontext_handlers : List String
deriving DecidableEq, Repr

/-- Embedding of `create_app` (src/app/__init__.py, lines 13-52): the
complete list of registrations the factory performs on the
application — four `register_blueprint` calls and three `errorhandler`
registrations.  No `teardown_appcontext` (or `teardown_request`)
handler is ever registered, there or anywhere else in the
repository. -/
def create_app : FlaskApp :=
  { blueprints := [("auth_bp", none), ("customer_bp", none),
                   ("employee_bp", some "/admin"),
                   ("analytics_bp", some "/analytics")],
    error_handlers := [404, 403, 500],
    teardown_appcontext_handlers := [] }

/-! ## validate_rating (src/app/security.py, lines 149-166)

`validate_rating` calls `int(rating)` and catches `(ValueError,
TypeError)`.  The embedding models the Python values such a call can
receive and CPython's `int()` conversion on them, including the
exception class it raises when conversion fails: `TypeError` for types
without integer conversion, `ValueError` for bad strings and for float
NaN, and `OverflowError` for infinite floats. -/

/-- A Python float: a finite value (modelled exactly by a rational), or
one of the three non-finite values. -/
inductive PyFloat where
  | finite (q : ℚ)
  | inf
  | negInf
  | nan
deriving DecidableEq, Repr

/-- Python values that can reach `validate_rating`. -/
inductive PyVal where
  | pyInt (n : ℤ)
  | pyBool (b : Bool)
  | pyFloat (f : PyFloat)
  | pyStr (s : String)
  | pyNone
  | pyList (len : Nat)
deriving DecidableEq, Repr

/-- The exception classes `int()` can raise. -/
inductive PyErr where
  | valueError
  | typeError
  | overflowError
deriving DecidableEq, Repr

/-- Truncation toward zero, as `int(float)` performs. -/
def truncRat (q : ℚ) : ℤ :=
  if 0 ≤ q then ⌊q⌋ else -⌊-q⌋

/-- Digit-run parsing for `int(str)`: a non-empty run of decimal
digits, with single underscores allowed between digits (CPython's
numeric-literal rule).  The fold state carries the accumulated value
and whether the previous character was a digit. -/
def pyDigits (cs : List Char) : Option Nat :=
  match cs.foldl
      (fun st c =>
        match st with
        | none => none
        | some (acc, lastDigit) =>
            if c.isDigit then some (acc * 10 + (c.toNat - 48), true)
            else if c = '_' then (if lastDigit then some (acc, false) else none)
            else none)
      (some (0, false)) with
  | some (acc, true) => some acc
  | _ => none

/-- Strip leading and trailing whitespace, as `int(str)` does. -/
def stripWs (cs : List Char) : List Char :=
  ((cs.dropWhile Char.isWhitespace).reverse.dropWhile Char.isWhitespace).reverse

/-- CPython `int(str)`: optional surrounding whitespace, an optional
sign, then a digit run (underscores between digits allowed).  `none`
means `int()` raises `ValueError`. -/
def pyStrToInt (s : String) : Option ℤ :=
  match stripWs s.toList with
  | '+' :: rest => (pyDigits rest).map (fun n => (n : ℤ))
  | '-' :: rest => (pyDigits rest).map (fun n => -(n : ℤ))
  | cs => (pyDigits cs).map (fun n => (n : ℤ))

/-- CPython `int(value)` over the modelled values: identity on ints,
`0`/`1` on bools, truncation on finite floats, `OverflowError` on
infinite floats, `ValueError` on NaN and on unparsable strings,
`TypeError` on `None` and lists. -/
def py_int : PyVal → Except PyErr ℤ
  | .pyInt n => .ok n
  | .pyBool b => .ok (if b then 1 else 0)
  | .pyFloat (.finite q) => .ok (truncRat q)
  | .pyFloat .inf => .error .overflowError
  | .pyFloat .negInf => .error .overflowError
  | .pyFloat .nan => .error .valueError
  | .pyStr s =>
      match pyStrToInt s with
      | some n => .ok n
      | none => .error .valueError
  | .pyNone => .error .typeError
  | .pyList _ => .error .typeError

/-- Embedding of `validate_rating` (security.py, lines 149-166):
`int(rating)` inside `try`, `1 <= rating_int <= 5` on success, `False`
when the conversion raises `ValueError` or `TypeError`; any other
exception class propagates (`.error`). -/
def validate_rating (rating : PyVal) : Except PyErr Bool :=
  match py_int rating with
  | .ok rating_int => .ok (decide (1 ≤ rating_int ∧ rating_int ≤ 5))
  | .error e =>
      if e = .valueError ∨ e = .typeError then .ok false else .error e

/-- Sanity checks of the `int()` model against CPython behaviour:
`int(" 4 ")` is 4, `int("3.5")` and `int("_1")` raise `ValueError`,
`int(5.7)` truncates to 5, `int("1_0")` is 10, `int(True)` is 1, and
`int(None)` raises `TypeError`. -/
theorem validate_rating_model_sanity :
    validate_rating (.pyStr " 4 ") = .ok true ∧
    validate_rating (.pyStr "3.5") = .ok false ∧
    validate_rating (.pyStr "1_0") = .ok false ∧
    validate_rating (.pyStr "_1") = .ok false ∧
    validate_rating (.pyBool true) = .ok true ∧
    validate_rating .pyNone = .ok false ∧
    validate_rating (.pyFloat (.finite (57/10))) = .ok true ∧
    validate_rating (.pyFloat (.finite (15/2))) = .ok false := by
  refine ⟨rfl, rfl, rfl, rfl, rfl, rfl, ?_, ?_⟩ <;>
    norm_num [validate_rating, py_int, truncRat]

/-! ## Helper lemmas about the dict model -/

theorem dictGet_dictPop {α : Type} (d : Dict α) (k k' : String) :
    dictGet (dictPop d k) k'
      = (if k' = k then none else dictGet d k') := by
  induction d with
  | nil => simp [dictGet, dictPop]
  | cons a d ih =>
      obtain ⟨k0, v⟩ := a
      by_cases hk : k0 = k
      · rw [show dictPop ((k0, v) :: d) k = dictPop d k by simp [dictPop, hk], ih]
        by_cases hk' : k' = k
        · simp [hk']
        · have hne : ¬(k0 = k') := by rw [hk]; exact fun h2 => hk' h2.symm
          simp [dictGet, hk', hne]
      · rw [show dictPop ((k0, v) :: d) k = (k0, v) :: dictPop d k by
            simp [dictPop, hk]]
        by_cases hk2 : k0 = k'
        · have hk' : ¬(k' = k) := by rw [← hk2]; exact hk
          simp [dictGet, hk2, hk']
        · simp [dictGet, hk2, ih]

theorem map_fst_dictPop {α : Type} (d : Dict α) (k : String) :
    (dictPop d k).map Prod.fst
      = (d.map Prod.fst).filter (fun s => !(s == k)) := by
  induction d with
  | nil => rfl
  | cons a d ih =>
      obtain ⟨k0, v⟩ := a
      by_cases hk : k0 = k <;> simp [dictPop, List.filter_cons, hk, ih]

theorem map_fst_dictInsert {α : Type} (d : Dict α) (k : String) (v : α) :
    (dictInsert d k v).map Prod.fst
      = (d.map Prod.fst).filter (fun s => !(s == k)) ++ [k] := by
  simp [dictInsert, map_fst_dictPop]

/-- The invariant of claim C9: a key is present in `_query_cache` in
exactly the positions it is present in `_cache_timestamps` (in
particular the two key sets are equal). -/
def cacheKeysAligned {α : Type} (st : CacheState α) : Prop :=
  st.query_cache.map Prod.fst = st.cache_timestamps.map Prod.fst

theorem applyCacheOp_preserves_keysAligned {α : Type} (op : CacheOp α)
    (st : CacheState α) (h : cacheKeysAligned st) :
    cacheKeysAligned (applyCacheOp op st) := by
  cases op with
  | invalidate cache_key =>
      unfold applyCacheOp invalidate_cache
      by_cases ht : truthyKey cache_key = true
      · simp only [ht, if_pos]
        unfold cacheKeysAligned at h ⊢
        simp [map_fst_dictPop, h]
      · simp only [Bool.not_eq_true] at ht
        simp [ht, cacheKeysAligned]
  | exec cfg dbEval query params cache_key ttl now =>
      unfold applyCacheOp execute_cached_query
      by_cases hb : (!cfg.cache_enabled || !truthyKey cache_key) = true
      · simp [hb, h]
      · simp only [Bool.not_eq_true] at hb
        simp only [hb, Bool.false_eq_true, if_false]
        rcases hq : dictGet st.query_cache (cache_key.getD "") with _ | cached
        · simp only [hq]
          unfold cacheKeysAligned at h ⊢
          simp [map_fst_dictInsert, h]
        · simp only [hq]
          by_cases hfresh :
              now - (dictGet st.cache_timestamps (cache_key.getD "")).getD 0
                < resolveTtl ttl cfg.cache_ttl
          · simp [hfresh, h]
          · simp only [hfresh, if_false]
            unfold cacheKeysAligned at h ⊢
            simp [map_fst_dictInsert, h]

theorem runCacheOps_preserves_keysAligned {α : Type} (ops : List (CacheOp α))
    (st : CacheState α) (h : cacheKeysAligned st) :
    cacheKeysAligned (runCacheOps ops st) := by
  induction ops generalizing st with
  | nil => exact h
  | cons op ops ih => exact ih _ (applyCacheOp_preserves_keysAligned op st h)

/-! ## Claim theorems -/

/-- Claim C1 (code bug in the source): the spec says a block that hits
lock-conflict errors on attempts 1 and 2 and would succeed on attempt 3
is re-executed and committed with retry count 2.  The code cannot do
this: `transaction` is a `@contextmanager` generator, and when the
first execution of the block raises a deadlock error the wrapper rolls
back, sleeps once, and then `yield`s a second time, at which point the
contextmanager protocol raises `RuntimeError("generator didn't stop
after throw()")`.  The block is never re-executed and nothing is ever
committed: the whole `with` statement produces exactly one block run,
one rollback and one sleep, then raises `RuntimeError`. -/
theorem transaction_retry_is_unreachable (e : PyExc)
    (h : _is_deadlock_error e = true) :
    with_transaction (some e)
      = ([.runBlock 0, .rollback, .sleep 0], .runtimeError) := by
  simp [with_transaction, transactionGen, h, DEADLOCK_MAX_RETRIES]

theorem transaction_retry_is_unreachable_witness :
    _is_deadlock_error (.dbError 1213) = true ∧
    with_transaction (some (.dbError 1213))
      = ([.runBlock 0, .rollback, .sleep 0], .runtimeError) :=
  ⟨by decide, transaction_retry_is_unreachable (.dbError 1213) (by decide)⟩

/-- Claim C2 (code bug in the source): the spec says persistent
lock-conflict errors exhaust all 3 attempts and raise the distinguished
`DeadlockError`.  In the code the `DeadlockError` branch is unreachable:
already on the first lock-conflict error the contextmanager protocol
raises `RuntimeError` (see C1), so a persistently deadlocking block gets
one attempt, is rolled back (no partial writes are committed), and the
caller sees `RuntimeError`, not `DeadlockError`. -/
theorem transaction_deadlock_error_is_unreachable :
    (with_transaction (some (.dbError 1205))).2 = .runtimeError ∧
    (with_transaction (some (.dbError 1205))).2 ≠ .raisedDeadlock ∧
    Event.commit ∉ (with_transaction (some (.dbError 1205))).1 ∧
    Event.rollback ∈ (with_transaction (some (.dbError 1205))).1 := by
  decide

/-- Claim C3 (confirmed): a block whose exception is not a lock-conflict
error (errno other than 1213/1205, or a non-database exception) is
rolled back and the same exception is re-raised, with no sleep and no
retry: the trace of the whole `with` statement is exactly one block run
followed by one rollback, and the outcome is the original exception. -/
theorem transaction_non_deadlock_rolls_back_and_reraises (e : PyExc)
    (h : _is_deadlock_error e = false) :
    with_transaction (some e) = ([.runBlock 0, .rollback], .raisedPy e) := by
  simp [with_transaction, transactionGen, h]

theorem transaction_non_deadlock_rolls_back_and_reraises_witness :
    _is_deadlock_error (.other 7) = false ∧
    with_transaction (some (.other 7))
      = ([.runBlock 0, .rollback], .raisedPy (.other 7)) :=
  ⟨by decide, transaction_non_deadlock_rolls_back_and_reraises (.other 7) (by decide)⟩

/-- Claim C4, counterexample: the claim asserts that for every attempt
number N the delay lies in [base·2^N·0.75, base·2^N·1.25] while also
never exceeding the cap.  At N = 4 with jitter value r = 1/2 (a legal
`random.random()` output, giving zero jitter) the uncapped delay is 1.6
but the cap forces the result down to 1.0, strictly below the claimed
lower bound 0.75·0.1·2^4 = 1.2. -/
theorem retry_delay_interval_claim_fails_at_attempt_four :
    (0:ℚ) ≤ 1/2 ∧ (1/2:ℚ) ≤ 1 ∧
    _calculate_retry_delay 4 (1/2)
      < DEADLOCK_RETRY_BASE_DELAY * 2 ^ 4 * (3/4) := by
  refine ⟨by norm_num, by norm_num, ?_⟩
  norm_num [_calculate_retry_delay, DEADLOCK_RETRY_BASE_DELAY,
    DEADLOCK_RETRY_MAX_DELAY]

/-- Claim C4, amended: for every attempt number N and every jitter value
r ∈ [0, 1], the delay lies in the jitter interval with both endpoints
clamped to the cap: min(base·2^N·0.75, cap) ≤ delay ≤
min(base·2^N·1.25, cap); in particular the delay never exceeds the
cap. -/
theorem retry_delay_within_capped_jitter_interval (attempt : Nat) (r : ℚ)
    (h0 : 0 ≤ r) (h1 : r ≤ 1) :
    min (DEADLOCK_RETRY_BASE_DELAY * 2 ^ attempt * (3/4)) DEADLOCK_RETRY_MAX_DELAY
        ≤ _calculate_retry_delay attempt r ∧
    _calculate_retry_delay attempt r
        ≤ min (DEADLOCK_RETRY_BASE_DELAY * 2 ^ attempt * (5/4))
            DEADLOCK_RETRY_MAX_DELAY := by
  have hd : (0:ℚ) ≤ DEADLOCK_RETRY_BASE_DELAY * 2 ^ attempt := by
    unfold DEADLOCK_RETRY_BASE_DELAY
    positivity
  unfold _calculate_retry_delay
  constructor
  · refine min_le_min ?_ le_rfl
    nlinarith
  · refine min_le_min ?_ le_rfl
    nlinarith

theorem retry_delay_within_capped_jitter_interval_witness :
    (0:ℚ) ≤ 1/2 ∧ (1/2:ℚ) ≤ 1 ∧
    (min (DEADLOCK_RETRY_BASE_DELAY * 2 ^ 2 * (3/4)) DEADLOCK_RETRY_MAX_DELAY
        ≤ _calculate_retry_delay 2 (1/2) ∧
     _calculate_retry_delay 2 (1/2)
        ≤ min (DEADLOCK_RETRY_BASE_DELAY * 2 ^ 2 * (5/4))
            DEADLOCK_RETRY_MAX_DELAY) :=
  ⟨by norm_num, by norm_num,
    retry_delay_within_capped_jitter_interval 2 (1/2) (by norm_num) (by norm_num)⟩

/-- Claim C7 (code bug in the source): `get_db` does create the
connection lazily and every later call in the request returns the same
connection, but the release half of the claim fails: `create_app` never
registers `close_db` (or any handler) via `teardown_appcontext`, so
nothing guarantees the connection is closed at the end of a request. -/
theorem create_app_never_registers_teardown :
    create_app.teardown_appcontext_handlers = [] ∧
    (∀ (Conn : Type) (c c' : Conn),
      (get_db (get_db (Option.none : Option Conn) c).2 c').1
        = (get_db (Option.none : Option Conn) c).1) :=
  ⟨rfl, fun _ _ _ => rfl⟩

/-- Claim C10, counterexample: `validate_rating` is not total.  On the
Python float `inf`, `int()` raises `OverflowError`, which the
`except (ValueError, TypeError)` clause does not catch, so the call
propagates an exception instead of returning a boolean. -/
theorem validate_rating_raises_on_infinite_float :
    validate_rating (.pyFloat .inf) = .error .overflowError := rfl

/-- Claim C10, amended: for every input that is not an infinite float,
`validate_rating` returns a boolean and never raises, and it returns
`True` exactly when `int()` conversion of the input yields an integer N
with 1 ≤ N ≤ 5. -/
theorem validate_rating_total_unless_infinite_float (v : PyVal)
    (h1 : v ≠ .pyFloat .inf) (h2 : v ≠ .pyFloat .negInf) :
    ∃ b : Bool, validate_rating v = .ok b ∧
      (b = true ↔ ∃ n : ℤ, py_int v = .ok n ∧ 1 ≤ n ∧ n ≤ 5) := by
  rcases he : py_int v with e | n
  · have he2 : e = .valueError ∨ e = .typeError := by
      cases v with
      | pyInt n => simp [py_int] at he
      | pyBool b => simp [py_int] at he
      | pyFloat f =>
          cases f with
          | finite q => simp [py_int] at he
          | inf => exact absurd rfl h1
          | negInf => exact absurd rfl h2
          | nan => simp [py_int] at he; simp [he]
      | pyStr s =>
          rcases hp : pyStrToInt s with _ | n
          · simp [py_int, hp] at he
            simp [he]
          · simp [py_int, hp] at he
      | pyNone => simp [py_int] at he; simp [he]
      | pyList len => simp [py_int] at he; simp [he]
    refine ⟨false, ?_, ?_⟩
    · unfold validate_rating
      rw [he]
      rcases he2 with h3 | h3 <;> simp [h3]
    · simp [he]
  · refine ⟨decide (1 ≤ n ∧ n ≤ 5), ?_, ?_⟩
    · unfold validate_rating
      rw [he]
    · simp [he, decide_eq_true_iff]

theorem validate_rating_total_unless_infinite_float_witness :
    (PyVal.pyStr "4" ≠ .pyFloat .inf) ∧ (PyVal.pyStr "4" ≠ .pyFloat .negInf) ∧
    (∃ b : Bool, validate_rating (.pyStr "4") = .ok b ∧
      (b = true ↔ ∃ n : ℤ, py_int (.pyStr "4") = .ok n ∧ 1 ≤ n ∧ n ≤ 5)) :=
  ⟨by decide, by decide,
    validate_rating_total_unless_infinite_float (.pyStr "4") (by decide) (by decide)⟩

/-- Claim C5 (confirmed): with caching enabled and TTL 300, a call
whose key holds an entry stored at time t0 returns the identical cached
result, untouched state and no live query as long as the entry's age is
under 300 time units, while a call 301 time units after the store runs
the query afresh, returns the fresh result and stores it under the
current timestamp.  (The key is assumed non-empty: an empty-string key
is falsy and bypasses the cache entirely, so no entry can ever be
stored under it.) -/
theorem cached_query_fresh_hit_stale_requery {α : Type} (cfg : AppConfig)
    (dbEval : String → List String → α) (query : String)
    (params : List String) (key : String) (v : α) (t0 : ℚ)
    (st : CacheState α) (hen : cfg.cache_enabled = true) (hkey : key ≠ "")
    (hv : dictGet st.query_cache key = some v)
    (ht : dictGet st.cache_timestamps key = some t0) :
    (∀ now : ℚ, now - t0 < 300 →
      execute_cached_query cfg dbEval query params (some key) (some 300) now st
        = (v, st, false)) ∧
    execute_cached_query cfg dbEval query params (some key) (some 300)
        (t0 + 301) st
      = (dbEval query params,
         ⟨dictInsert st.query_cache key (dbEval query params),
          dictInsert st.cache_timestamps key (t0 + 301)⟩, true) := by
  have htr : truthyKey (some key) = true := by simp [truthyKey, hkey]
  have httl : resolveTtl (some 300) cfg.cache_ttl = 300 := by
    norm_num [resolveTtl]
  constructor
  · intro now hnow
    unfold execute_cached_query
    simp [hen, htr, hv, ht, httl, hnow]
  · unfold execute_cached_query
    have hstale : ¬(t0 + 301 - t0 < (300:ℚ)) := by
      intro hcon
      rw [show t0 + 301 - t0 = (301:ℚ) by ring] at hcon
      norm_num at hcon
    simp [hen, htr, hv, ht, httl, hstale, execute_query]
    norm_num

theorem cached_query_fresh_hit_stale_requery_witness :
    ((⟨true, 300⟩ : AppConfig).cache_enabled = true ∧ "k" ≠ "" ∧
     dictGet (⟨[("k", 7)], [("k", 0)]⟩ : CacheState Nat).query_cache "k"
       = some 7 ∧
     dictGet (⟨[("k", 7)], [("k", 0)]⟩ : CacheState Nat).cache_timestamps "k"
       = some 0) ∧
    ((∀ now : ℚ, now - 0 < 300 →
      execute_cached_query ⟨true, 300⟩ (fun _ _ => 42) "q" [] (some "k")
          (some 300) now ⟨[("k", 7)], [("k", 0)]⟩
        = (7, ⟨[("k", 7)], [("k", 0)]⟩, false)) ∧
    execute_cached_query ⟨true, 300⟩ (fun _ _ => 42) "q" [] (some "k")
        (some 300) ((0:ℚ) + 301) ⟨[("k", 7)], [("k", 0)]⟩
      = (42, ⟨dictInsert [("k", 7)] "k" 42,
              dictInsert [("k", 0)] "k" ((0:ℚ) + 301)⟩, true)) :=
  ⟨⟨rfl, by decide, rfl, rfl⟩,
    cached_query_fresh_hit_stale_requery ⟨true, 300⟩ (fun _ _ => 42) "q" []
      "k" 7 0 ⟨[("k", 7)], [("k", 0)]⟩ rfl (by decide) rfl rfl⟩

/-- Claim C6, counterexample: the claim says `invalidate_cache(key)`
with a specific key removes exactly that key and nothing else.  With
the specific key `""` the code takes the falsy branch and clears the
entire cache: an unrelated entry `"a"` present before the call is gone
after it. -/
theorem invalidate_cache_empty_key_clears_other_entries :
    dictGet (invalidate_cache (some "")
        (⟨[("a", 1)], [("a", 0)]⟩ : CacheState Nat)).query_cache "a" = none ∧
    dictGet (⟨[("a", 1)], [("a", 0)]⟩ : CacheState Nat).query_cache "a"
      = some 1 :=
  ⟨rfl, rfl⟩

/-- Claim C6, amended: for every cache state, `invalidate_cache(key)`
with a non-empty key removes exactly that key's entry and timestamp and
leaves every other cached entry and timestamp unchanged, while calling
it with no key — or with the empty string, which Python treats as falsy
just like `None` — empties the entire cache and all timestamps. -/
theorem invalidate_cache_removes_key_or_clears_all {α : Type}
    (st : CacheState α) (k : String) (hk : k ≠ "") :
    (∀ k' : String,
      dictGet (invalidate_cache (some k) st).query_cache k'
        = (if k' = k then none else dictGet st.query_cache k') ∧
      dictGet (invalidate_cache (some k) st).cache_timestamps k'
        = (if k' = k then none else dictGet st.cache_timestamps k')) ∧
    invalidate_cache (Option.none : Option String) st
      = ⟨[], []⟩ := by
  have htr : truthyKey (some k) = true := by simp [truthyKey, hk]
  refine ⟨fun k' => ?_, by simp [invalidate_cache, truthyKey]⟩
  unfold invalidate_cache
  simp only [htr, if_pos, Option.getD_some]
  exact ⟨dictGet_dictPop st.query_cache k k',
         dictGet_dictPop st.cache_timestamps k k'⟩

theorem invalidate_cache_removes_key_or_clears_all_witness :
    ("b" ≠ "") ∧
    ((∀ k' : String,
      dictGet (invalidate_cache (some "b")
          (⟨[("a", 1)], [("a", 0)]⟩ : CacheState Nat)).query_cache k'
        = (if k' = "b" then none
           else dictGet (⟨[("a", 1)], [("a", 0)]⟩ :
              CacheState Nat).query_cache k') ∧
      dictGet (invalidate_cache (some "b")
          (⟨[("a", 1)], [("a", 0)]⟩ : CacheState Nat)).cache_timestamps k'
        = (if k' = "b" then none
           else dictGet (⟨[("a", 1)], [("a", 0)]⟩ :
              CacheState Nat).cache_timestamps k')) ∧
    invalidate_cache (Option.none : Option String)
        (⟨[("a", 1)], [("a", 0)]⟩ : CacheState Nat)
      = ⟨[], []⟩) :=
  ⟨by decide,
    invalidate_cache_removes_key_or_clears_all
      (⟨[("a", 1)], [("a", 0)]⟩ : CacheState Nat) "b" (by decide)⟩

/-- Claim C8 (confirmed): whenever caching is disabled, or no cache key
is supplied, or the key is absent from the cache, or its stored
timestamp is stale with respect to the resolved TTL, the call returns
exactly what a live `execute_query` with the same query and parameters
returns, and a live query is in fact executed — a cache miss always
falls back to a live query. -/
theorem cached_query_falls_back_to_live_query {α : Type} (cfg : AppConfig)
    (dbEval : String → List String → α) (query : String)
    (params : List String) (cache_key : Option String) (ttl : Option ℚ)
    (now : ℚ) (st : CacheState α)
    (h : cfg.cache_enabled = false ∨ cache_key = Option.none ∨
         dictGet st.query_cache (cache_key.getD "") = Option.none ∨
         (∃ t0 : ℚ, dictGet st.cache_timestamps (cache_key.getD "") = some t0 ∧
            resolveTtl ttl cfg.cache_ttl ≤ now - t0)) :
    (execute_cached_query cfg dbEval query params cache_key ttl now st).1
        = execute_query dbEval query params ∧
    (execute_cached_query cfg dbEval query params cache_key ttl now st).2.2
        = true := by
  rcases h with h | h | h | ⟨t0, ht, hstale⟩
  · unfold execute_cached_query
    simp [h, execute_query]
  · subst h
    unfold execute_cached_query
    simp [truthyKey, execute_query]
  · unfold execute_cached_query
    by_cases hb : (!cfg.cache_enabled || !truthyKey cache_key) = true
    · simp [hb, execute_query]
    · simp only [hb, Bool.false_eq_true, if_false]
      simp [h, execute_query]
  · unfold execute_cached_query
    by_cases hb : (!cfg.cache_enabled || !truthyKey cache_key) = true
    · simp [hb, execute_query]
    · simp only [hb, Bool.false_eq_true, if_false]
      rcases hq : dictGet st.query_cache (cache_key.getD "") with _ | cached
      · simp [hq, execute_query]
      · have hnf : ¬(now - t0 < resolveTtl ttl cfg.cache_ttl) :=
          not_lt.mpr hstale
        simp [hq, ht, hnf, execute_query]

theorem cached_query_falls_back_to_live_query_witness :
    ((⟨false, 300⟩ : AppConfig).cache_enabled = false ∨
     (some "k" : Option String) = Option.none ∨
     dictGet (⟨[], []⟩ : CacheState Nat).query_cache ((some "k").getD "")
       = Option.none ∨
     (∃ t0 : ℚ,
        dictGet (⟨[], []⟩ : CacheState Nat).cache_timestamps
            ((some "k").getD "") = some t0 ∧
        resolveTtl (Option.none) (⟨false, 300⟩ : AppConfig).cache_ttl
          ≤ 5 - t0)) ∧
    ((execute_cached_query ⟨false, 300⟩ (fun _ _ => 42) "q" [] (some "k")
        Option.none 5 ⟨[], []⟩).1 = execute_query (fun _ _ => 42) "q" [] ∧
     (execute_cached_query ⟨false, 300⟩ (fun _ _ => 42) "q" [] (some "k")
        Option.none 5 ⟨[], []⟩).2.2 = true) :=
  ⟨Or.inl rfl,
    cached_query_falls_back_to_live_query ⟨false, 300⟩ (fun _ _ => 42) "q"
      [] (some "k") Option.none 5 ⟨[], []⟩ (Or.inl rfl)⟩

/-- Claim C9 (confirmed): starting from the empty module state, every
sequence of `execute_cached_query` and `invalidate_cache` calls keeps
the key lists of `_query_cache` and `_cache_timestamps` equal: a key
has a cached result exactly when it has a stored timestamp. -/
theorem cache_key_sets_stay_aligned {α : Type} (ops : List (CacheOp α)) :
    cacheKeysAligned (runCacheOps ops (initialCacheState α)) :=
  runCacheOps_preserves_keysAligned ops (initialCacheState α) rfl

/-- Sanity check: a block that completes normally is committed exactly
once and the `with` statement succeeds. -/
theorem with_transaction_success_commits_once :
    with_transaction none = ([.runBlock 0, .commit], .ok) := by decide

end StreamVault
